import Mathlib

/-!
Verification of the CDN provider-abstraction and dispatch layer.

The development shallowly embeds the TypeScript sources:
* the provider base class (default HTTP download and existence probe,
  mandatory upload, optional delete);
* the plain, name-keyed dispatch service (every call names a provider);
* the single-selection dispatch service (calls may omit the name and use
  the active provider), built on a keyed registry with single selection.

Promises are modelled by the Except monad over thrown JavaScript errors,
and the network by an explicit fetch function passed as a parameter.
-/

set_option autoImplicit false

/-- Thrown JavaScript error values; every error in the embedded code is an
Error object carrying a message string. -/
structure JSError where
  message : String
deriving DecidableEq, Repr

/-- Options accepted by an upload call (interface UploadOptions). -/
structure UploadOptions where
  filename : Option String
  contentType : Option String
  metadata : Option (List (String × String))
deriving DecidableEq, Repr

/-- Result of an upload (interface UploadResult). -/
structure UploadResult where
  url : String
  id : Option String
  metadata : Option (List (String × String))
deriving DecidableEq, Repr

/-- Result of a delete (interface DeleteResult). -/
structure DeleteResult where
  success : Bool
  message : Option String
deriving DecidableEq, Repr

/-- A fetch response as consumed by the embedded code: the ok flag, the
status text and the body bytes (arrayBuffer). -/
structure FetchResponse where
  ok : Bool
  statusText : String
  body : List Nat
deriving DecidableEq, Repr

/-- The network, as the code sees it: a function from a url and an optional
request method (none models a plain fetch(url), i.e. GET; some "HEAD"
models fetch(url, \x7bmethod: 'HEAD'\x7d) ) to either a transport error
(a rejected fetch) or a response. -/
def FetchFn : Type := String → Option String → Except JSError FetchResponse

/-- A CDN provider instance: the four operations of the capability
contract. The delete operation is optional (async delete?(url) in the
source), modelled by an Option-valued field. -/
structure CDNProvider where
  upload : List Nat → Option UploadOptions → Except JSError UploadResult
  delete : Option (String → Except JSError DeleteResult)
  download : String → Except JSError (List Nat)
  «exists» : String → Except JSError Bool

/-- Default download of the provider base class: fetch(url); on a
non-ok response throw Failed to download file with the status text; on an
ok response return the body bytes. A rejected fetch is not caught. -/
def CDNProvider.defaultDownload (fetch : FetchFn) (url : String) :
    Except JSError (List Nat) :=
  match fetch url none with
  | Except.error e => Except.error e
  | Except.ok response =>
    if !response.ok then
      Except.error ⟨"Failed to download file: " ++ response.statusText⟩
    else
      Except.ok response.body

/-- Default existence probe of the provider base class: fetch(url, HEAD)
inside a try/catch; return response.ok, and false on any caught error. -/
def CDNProvider.defaultExists (fetch : FetchFn) (url : String) :
    Except JSError Bool :=
  match fetch url (some "HEAD") with
  | Except.error _ => Except.ok false
  | Except.ok response => Except.ok response.ok

/-- The provider base class itself (class CDNProvider / CDNResource):
upload throws its must-be-implemented error, delete is absent, download
and exists are the default HTTP behaviours over the given network. -/
def CDNProvider.base (fetch : FetchFn) : CDNProvider where
  upload := fun _ _ =>
    Except.error ⟨"Method \x27upload\x27 must be implemented by subclasses"⟩
  delete := none
  download := CDNProvider.defaultDownload fetch
  «exists» := CDNProvider.defaultExists fetch

/-- Lookup in a JavaScript object used as a string-keyed map, modelled as
an association list in insertion order. -/
def assocGet {α : Type} : List (String × α) → String → Option α
  | [], _ => none
  | (k, v) :: rest, key => if k = key then some v else assocGet rest key

/-- Assignment obj[key] = val on a JavaScript object: replaces the value
in place when the key is present, otherwise appends the new entry. -/
def assocSet {α : Type} : List (String × α) → String → α → List (String × α)
  | [], key, val => [(key, val)]
  | (k, v) :: rest, key, val =>
    if k = key then (key, val) :: rest else (k, v) :: assocSet rest key val

@[simp]
theorem assocGet_assocSet_same {α : Type} (m : List (String × α))
    (key : String) (val : α) : assocGet (assocSet m key val) key = some val := by
  induction m with
  | nil => simp [assocGet, assocSet]
  | cons hd tl ih =>
    obtain ⟨k, v⟩ := hd
    by_cases h : k = key
    · simp [assocGet, assocSet, h]
    · simp [assocGet, assocSet, h, ih]

theorem assocGet_assocSet_other {α : Type} (m : List (String × α))
    (key other : String) (val : α) (h : other ≠ key) :
    assocGet (assocSet m key val) other = assocGet m other := by
  have h2 : key ≠ other := Ne.symm h
  induction m with
  | nil => simp [assocGet, assocSet, h2]
  | cons hd tl ih =>
    obtain ⟨k, v⟩ := hd
    by_cases hk : k = key
    · subst hk
      simp [assocGet, assocSet, h2]
    · simp [assocGet, assocSet, hk, ih]

/-- The plain dispatch service (class CDNService over a Record of
resources): every operation names its provider; no active selection. -/
structure CDNServicePlain where
  resources : List (String × CDNProvider)

/-- Registration in the plain service: this.resources[name] = resource. -/
def CDNServicePlain.registerCDN (svc : CDNServicePlain) (name : String)
    (resource : CDNProvider) : CDNServicePlain :=
  ⟨assocSet svc.resources name resource⟩

/-- The not-found error thrown by the plain getCDNByName, listing the
registered names. -/
def CDNServicePlain.notFoundError (svc : CDNServicePlain) (cdnName : String) :
    JSError :=
  ⟨"CDN " ++ cdnName ++ " not found. Available CDNs: " ++
    String.intercalate ", " (svc.resources.map Prod.fst)⟩

/-- Resolution in the plain service: return the resource at the name, or
throw the not-found error. -/
def CDNServicePlain.getCDNByName (svc : CDNServicePlain) (cdnName : String) :
    Except JSError CDNProvider :=
  match assocGet svc.resources cdnName with
  | some cdn => Except.ok cdn
  | none => Except.error (svc.notFoundError cdnName)

/-- Plain service upload: resolve the name, forward data and options. -/
def CDNServicePlain.upload (svc : CDNServicePlain) (cdnName : String)
    (data : List Nat) (options : Option UploadOptions) :
    Except JSError UploadResult :=
  (svc.getCDNByName cdnName).bind fun cdn => cdn.upload data options

/-- Plain service delete: resolve the name, throw the does-not-support
error when the resource has no delete, otherwise forward the url. -/
def CDNServicePlain.delete (svc : CDNServicePlain) (cdnName : String)
    (url : String) : Except JSError DeleteResult :=
  (svc.getCDNByName cdnName).bind fun cdn =>
    match cdn.delete with
    | none => Except.error ⟨"CDN " ++ cdnName ++ " does not support deletion"⟩
    | some d => d url

/-- Plain service download: resolve the name, forward the url. -/
def CDNServicePlain.download (svc : CDNServicePlain) (cdnName : String)
    (url : String) : Except JSError (List Nat) :=
  (svc.getCDNByName cdnName).bind fun cdn => cdn.download url

/-- Plain service existence check: resolve the name, forward the url. -/
def CDNServicePlain.exists (svc : CDNServicePlain) (cdnName : String)
    (url : String) : Except JSError Bool :=
  (svc.getCDNByName cdnName).bind fun cdn => cdn.exists url

/-- Modelled from the spec: KeyedRegistryWithSingleSelection comes from the
external utility package and is not under src. Per the spec it is a keyed
collection with at most one entry marked active: register inserts or
replaces with no error, getItemByName is a plain lookup, getActiveItem
fails with a no-active-provider error when no entry is marked active, and
setActiveItem fails with a not-found error for an unregistered name. -/
structure KeyedRegistryWithSingleSelection (α : Type) where
  items : List (String × α)
  activeName : Option String

/-- Modelled from the spec: register inserts or replaces the entry at the
name; no error condition. -/
def KeyedRegistryWithSingleSelection.register {α : Type}
    (reg : KeyedRegistryWithSingleSelection α) (name : String) (item : α) :
    KeyedRegistryWithSingleSelection α :=
  { reg with items := assocSet reg.items name item }

/-- Modelled from the spec: lookup by name, absent names give none. -/
def KeyedRegistryWithSingleSelection.getItemByName {α : Type}
    (reg : KeyedRegistryWithSingleSelection α) (name : String) : Option α :=
  assocGet reg.items name

/-- Modelled from the spec: the error raised by a name-omitting call when
no entry is marked active. -/
def noActiveItemError : JSError := ⟨"No active item selected"⟩

/-- Modelled from the spec: return the entry currently marked active, or
fail with the no-active error. -/
def KeyedRegistryWithSingleSelection.getActiveItem {α : Type}
    (reg : KeyedRegistryWithSingleSelection α) : Except JSError α :=
  match reg.activeName with
  | none => Except.error noActiveItemError
  | some n =>
    match assocGet reg.items n with
    | none => Except.error noActiveItemError
    | some item => Except.ok item

/-- The single-selection dispatch service (class CDNService over a
KeyedRegistryWithSingleSelection of providers). -/
structure CDNService where
  providers : KeyedRegistryWithSingleSelection CDNProvider

/-- registerProvider = this.providers.register. -/
def CDNService.registerProvider (svc : CDNService) (name : String)
    (p : CDNProvider) : CDNService :=
  ⟨svc.providers.register name p⟩

/-- getActiveProvider = this.providers.getActiveItem. -/
def CDNService.getActiveProvider (svc : CDNService) :
    Except JSError CDNProvider :=
  svc.providers.getActiveItem

/-- The not-found error thrown by the single-selection getCDNByName. -/
def CDNService.notFoundError (cdnName : String) : JSError :=
  ⟨"CDN " ++ cdnName ++
    " not found. Please register it first with registerCDN(cdnName, cdnProvider)."⟩

/-- Resolution in the single-selection service: getItemByName, throwing
the not-found error when the lookup comes back empty. -/
def CDNService.getCDNByName (svc : CDNService) (cdnName : String) :
    Except JSError CDNProvider :=
  match svc.providers.getItemByName cdnName with
  | some cdn => Except.ok cdn
  | none => Except.error (CDNService.notFoundError cdnName)

/-- First positional argument of the overloaded upload: a provider name
(string) or a payload (Buffer). -/
inductive StringOrBuffer where
  | str (s : String)
  | buf (b : List Nat)

/-- Second positional argument of the overloaded upload: a payload
(Buffer) or upload options. -/
inductive BufferOrOptions where
  | buf (b : List Nat)
  | opts (o : UploadOptions)

/-- The cast dataOrOptions as UploadOptions on the active-provider path:
the value is passed through unchanged; on a well-typed call it is either
options or undefined. -/
def BufferOrOptions.asOptions : Option BufferOrOptions → Option UploadOptions
  | some (BufferOrOptions.opts o) => some o
  | _ => none

/-- The cast dataOrOptions as Buffer on the named-provider path: the value
is passed through unchanged; on a well-typed call it is a Buffer. The
fallback for the other shapes (which a well-typed call never produces)
is the empty byte sequence. -/
def BufferOrOptions.asBuffer : Option BufferOrOptions → List Nat
  | some (BufferOrOptions.buf b) => b
  | _ => []

/-- Overloaded upload of the single-selection service: when the first
argument is a Buffer, use the active provider with the second argument as
options; when it is a string, resolve it as a provider name and use the
second argument as the payload. -/
def CDNService.upload (svc : CDNService) (cdnNameOrData : StringOrBuffer)
    (dataOrOptions : Option BufferOrOptions) (options : Option UploadOptions) :
    Except JSError UploadResult :=
  match cdnNameOrData with
  | StringOrBuffer.buf data =>
    svc.getActiveProvider.bind fun p =>
      p.upload data (BufferOrOptions.asOptions dataOrOptions)
  | StringOrBuffer.str cdnName =>
    (svc.getCDNByName cdnName).bind fun p =>
      p.upload (BufferOrOptions.asBuffer dataOrOptions) options

/-- Overloaded delete of the single-selection service: with one argument
(url = none) use the active provider with the first argument as the url;
with two arguments resolve the first as a provider name. Either way, a
provider without a delete capability raises the does-not-support error. -/
def CDNService.delete (svc : CDNService) (cdnNameOrUrl : String)
    (url : Option String) : Except JSError DeleteResult :=
  match url with
  | none =>
    svc.getActiveProvider.bind fun cdn =>
      match cdn.delete with
      | none => Except.error ⟨"Active CDN does not support deletion"⟩
      | some d => d cdnNameOrUrl
  | some u =>
    (svc.getCDNByName cdnNameOrUrl).bind fun cdn =>
      match cdn.delete with
      | none =>
        Except.error ⟨"CDN " ++ cdnNameOrUrl ++ " does not support deletion"⟩
      | some d => d u

/-- Overloaded download of the single-selection service: one argument uses
the active provider with that argument as the url, two arguments resolve
the first as a provider name. -/
def CDNService.download (svc : CDNService) (cdnNameOrUrl : String)
    (url : Option String) : Except JSError (List Nat) :=
  match url with
  | none => svc.getActiveProvider.bind fun cdn => cdn.download cdnNameOrUrl
  | some u => (svc.getCDNByName cdnNameOrUrl).bind fun cdn => cdn.download u

/-- Overloaded existence check of the single-selection service: one
argument uses the active provider with that argument as the url, two
arguments resolve the first as a provider name. -/
def CDNService.exists (svc : CDNService) (cdnNameOrUrl : String)
    (url : Option String) : Except JSError Bool :=
  match url with
  | none => svc.getActiveProvider.bind fun cdn => cdn.exists cdnNameOrUrl
  | some u => (svc.getCDNByName cdnNameOrUrl).bind fun cdn => cdn.exists u

/-- A concrete provider used in closed statements: upload echoes the
payload into the result id, delete succeeds echoing the url, download
returns a fixed body, existence succeeds. -/
def okProvider : CDNProvider where
  upload := fun data _ =>
    Except.ok ⟨"uploaded", some (String.intercalate "," (data.map toString)), none⟩
  delete := some fun url => Except.ok ⟨true, some url⟩
  download := fun _ => Except.ok [1, 2, 3]
  «exists» := fun _ => Except.ok true

/-- A concrete provider that does not override the optional delete. -/
def noDeleteProvider : CDNProvider where
  upload := fun _ _ => Except.ok ⟨"nd", none, none⟩
  delete := none
  download := fun _ => Except.ok []
  «exists» := fun _ => Except.ok false

/-- A concrete provider whose every operation throws the given error. -/
def failingProvider (e : JSError) : CDNProvider where
  upload := fun _ _ => Except.error e
  delete := some fun _ => Except.error e
  download := fun _ => Except.error e
  «exists» := fun _ => Except.error e

/-- A concrete single-selection service: okProvider registered under a and
active, noDeleteProvider registered under b. -/
def svc1 : CDNService :=
  ⟨⟨[("a", okProvider), ("b", noDeleteProvider)], some "a"⟩⟩

/-- A concrete single-selection service whose only and active provider
lacks the delete capability. -/
def svc2 : CDNService := ⟨⟨[("b", noDeleteProvider)], some "b"⟩⟩

/-- A concrete single-selection service holding one failing provider. -/
def svcFail : CDNService :=
  ⟨⟨[("f", failingProvider ⟨"Service unavailable"⟩)], some "f"⟩⟩

/-- UTF-8 bytes of a text payload, following the words of the spec for the
text-to-bytes conversion it describes; used only to state what the spec
predicts, never as part of the embedded code. -/
def specUtf8Bytes (s : String) : List Nat :=
  (String.toUTF8 s).toList.map (fun b => b.toNat)

/-- C1 counterexample: on the plain service with an empty registry, the
existence check for an unregistered provider name throws the not-found
error instead of returning false as the claim states. -/
theorem C1_counterexample :
    CDNServicePlain.exists ⟨[]⟩ "missing" "http://x/f" =
      Except.error ⟨"CDN missing not found. Available CDNs: "⟩ ∧
    CDNServicePlain.exists ⟨[]⟩ "missing" "http://x/f" ≠ Except.ok false := by
  refine ⟨rfl, ?_⟩
  intro h
  exact Except.noConfusion h

/-- C1 amended: under the plain service an unregistered name makes every
named operation fail with the provider-not-found error — upload, download
and delete as the claim states, but also exists, which throws the same
error rather than returning false. -/
theorem C1_plain_unregistered_all_fail (svc : CDNServicePlain)
    (n url : String) (data : List Nat) (opts : Option UploadOptions)
    (h : assocGet svc.resources n = none) :
    svc.upload n data opts = Except.error (svc.notFoundError n) ∧
    svc.download n url = Except.error (svc.notFoundError n) ∧
    svc.delete n url = Except.error (svc.notFoundError n) ∧
    CDNServicePlain.exists svc n url = Except.error (svc.notFoundError n) := by
  simp [CDNServicePlain.upload, CDNServicePlain.download,
        CDNServicePlain.delete, CDNServicePlain.exists,
        CDNServicePlain.getCDNByName, h, Except.bind]

/-- C1 witness: the amended statement evaluated on the empty plain
service at the name missing. -/
theorem C1_witness :
    CDNServicePlain.upload ⟨[]⟩ "missing" [7] none =
      Except.error (CDNServicePlain.notFoundError ⟨[]⟩ "missing") ∧
    CDNServicePlain.download ⟨[]⟩ "missing" "u" =
      Except.error (CDNServicePlain.notFoundError ⟨[]⟩ "missing") ∧
    CDNServicePlain.delete ⟨[]⟩ "missing" "u" =
      Except.error (CDNServicePlain.notFoundError ⟨[]⟩ "missing") ∧
    CDNServicePlain.exists ⟨[]⟩ "missing" "u" =
      Except.error (CDNServicePlain.notFoundError ⟨[]⟩ "missing") :=
  C1_plain_unregistered_all_fail ⟨[]⟩ "missing" "u" [7] none rfl

/-- C2 counterexample: with okProvider registered under a and active, a
text payload hi given as the first argument of upload is not UTF-8
encoded and forwarded to the resolved provider as the claim states; it is
interpreted as a provider name and the call fails with the not-found
error. -/
theorem C2_counterexample :
    svc1.upload (StringOrBuffer.str "hi") none none =
      Except.error (CDNService.notFoundError "hi") ∧
    svc1.upload (StringOrBuffer.str "hi") none none ≠
      okProvider.upload (specUtf8Bytes "hi") none := by
  refine ⟨rfl, ?_⟩
  intro h
  exact Except.noConfusion h

/-- C2 amended: the dispatch service performs no text-to-bytes
conversion; a payload is accepted only as a raw byte sequence and is
forwarded to the provider upload unchanged, on the active path and on the
named path alike, while a string first argument is always interpreted as
a provider name. -/
theorem C2_buffer_forwarded_unchanged (svc : CDNService) (p q : CDNProvider)
    (data : List Nat) (dOrO : Option BufferOrOptions)
    (opts : Option UploadOptions) (name : String)
    (hA : svc.getActiveProvider = Except.ok p)
    (hN : svc.getCDNByName name = Except.ok q) :
    svc.upload (StringOrBuffer.buf data) dOrO opts =
      p.upload data (BufferOrOptions.asOptions dOrO) ∧
    svc.upload (StringOrBuffer.str name) (some (BufferOrOptions.buf data)) opts =
      q.upload data opts := by
  simp [CDNService.upload, hA, hN, Except.bind, BufferOrOptions.asBuffer]

/-- C2 witness: the amended statement evaluated on svc1 with a concrete
payload, on the active path and on the named path. -/
theorem C2_witness :
    svc1.upload (StringOrBuffer.buf [10, 20]) none none =
      okProvider.upload [10, 20] (BufferOrOptions.asOptions none) ∧
    svc1.upload (StringOrBuffer.str "a")
        (some (BufferOrOptions.buf [10, 20])) none =
      okProvider.upload [10, 20] none :=
  C2_buffer_forwarded_unchanged svc1 okProvider okProvider
    [10, 20] none none "a" rfl rfl

/-- C3: for every network and url, the default existence probe issues a
HEAD fetch and never raises: it always returns an ok value, and that
value is true exactly when the HEAD fetch produced a success response;
non-success responses and rejected fetches alike give false. -/
theorem C3_defaultExists_head_never_throws (fetch : FetchFn) (url : String) :
    (∃ b, CDNProvider.defaultExists fetch url = Except.ok b) ∧
    (CDNProvider.defaultExists fetch url = Except.ok true ↔
      ∃ r, fetch url (some "HEAD") = Except.ok r ∧ r.ok = true) := by
  unfold CDNProvider.defaultExists
  cases h : fetch url (some "HEAD") with
  | error e => simp
  | ok r => simp

/-- C4: when the GET fetch of the default download yields a response, a
success response returns the full body bytes and a non-success response
fails with the failed-to-download error carrying the status text of the
response verbatim. -/
theorem C4_defaultDownload_response (fetch : FetchFn) (url : String)
    (r : FetchResponse) (h : fetch url none = Except.ok r) :
    (r.ok = true → CDNProvider.defaultDownload fetch url = Except.ok r.body) ∧
    (r.ok = false → CDNProvider.defaultDownload fetch url =
      Except.error ⟨"Failed to download file: " ++ r.statusText⟩) := by
  unfold CDNProvider.defaultDownload
  rw [h]
  constructor <;> intro hok <;> simp [hok]

/-- A network on which every request yields an HTTP 404 response. -/
def fetch404 : FetchFn := fun _ _ => Except.ok ⟨false, "Not Found", []⟩

/-- A network on which every request succeeds with a fixed body. -/
def fetchOkBody : FetchFn := fun _ _ => Except.ok ⟨true, "OK", [0, 1, 2, 3, 255]⟩

/-- C4 witness: the theorem evaluated on the 404 network and on a success
network with a concrete body. -/
theorem C4_witness :
    CDNProvider.defaultDownload fetch404 "http://x/f" =
      Except.error ⟨"Failed to download file: Not Found"⟩ ∧
    CDNProvider.defaultDownload fetchOkBody "http://x/f" =
      Except.ok [0, 1, 2, 3, 255] :=
  ⟨(C4_defaultDownload_response fetch404 "http://x/f"
      ⟨false, "Not Found", []⟩ rfl).2 rfl,
   (C4_defaultDownload_response fetchOkBody "http://x/f"
      ⟨true, "OK", [0, 1, 2, 3, 255]⟩ rfl).1 rfl⟩

/-- C5: when the provider a delete call resolves to has not overridden the
optional delete capability, the call fails with the does-not-support
error, for every url and independently of the provider's other
operations — so no backend operation is invoked and it does not matter
whether the url exists. Both the named and the active resolution paths
are covered. -/
theorem C5_delete_unsupported (svc : CDNService) (name url : String)
    (p q : CDNProvider)
    (hN : svc.getCDNByName name = Except.ok p) (hpd : p.delete = none)
    (hA : svc.getActiveProvider = Except.ok q) (hqd : q.delete = none) :
    svc.delete name (some url) =
      Except.error ⟨"CDN " ++ name ++ " does not support deletion"⟩ ∧
    svc.delete url none =
      Except.error ⟨"Active CDN does not support deletion"⟩ := by
  simp [CDNService.delete, hN, hA, hpd, hqd, Except.bind]

/-- C5 witness: the theorem evaluated on svc2, whose only and active
provider noDeleteProvider lacks delete. -/
theorem C5_witness :
    CDNService.delete svc2 "b" (some "http://x/f") =
      Except.error ⟨"CDN b does not support deletion"⟩ ∧
    CDNService.delete svc2 "http://x/f" none =
      Except.error ⟨"Active CDN does not support deletion"⟩ :=
  C5_delete_unsupported svc2 "b" "http://x/f"
    noDeleteProvider noDeleteProvider rfl rfl rfl rfl

/-- C6: in both service variants, registering a provider under a name and
resolving that name returns the same instance; resolving a name whose
lookup is empty fails with the provider-not-found error; re-registering
the same name replaces the prior entry, so resolution then returns the
new instance. -/
theorem C6_register_resolve (svcP : CDNServicePlain) (svcS : CDNService)
    (n m : String) (p p2 : CDNProvider)
    (hm : assocGet (svcP.registerCDN n p).resources m = none)
    (hms : (svcS.registerProvider n p).providers.getItemByName m = none) :
    ((svcP.registerCDN n p).getCDNByName n = Except.ok p) ∧
    (((svcP.registerCDN n p).registerCDN n p2).getCDNByName n =
      Except.ok p2) ∧
    ((svcP.registerCDN n p).getCDNByName m =
      Except.error ((svcP.registerCDN n p).notFoundError m)) ∧
    ((svcS.registerProvider n p).getCDNByName n = Except.ok p) ∧
    (((svcS.registerProvider n p).registerProvider n p2).getCDNByName n =
      Except.ok p2) ∧
    ((svcS.registerProvider n p).getCDNByName m =
      Except.error (CDNService.notFoundError m)) := by
  simp only [CDNServicePlain.registerCDN] at hm
  simp only [CDNService.registerProvider,
    KeyedRegistryWithSingleSelection.register,
    KeyedRegistryWithSingleSelection.getItemByName] at hms
  refine ⟨?_, ?_, ?_, ?_, ?_, ?_⟩ <;>
    simp [CDNServicePlain.getCDNByName, CDNServicePlain.registerCDN,
          CDNService.getCDNByName, CDNService.registerProvider,
          KeyedRegistryWithSingleSelection.register,
          KeyedRegistryWithSingleSelection.getItemByName, hm, hms]

/-- C6 witness: the theorem evaluated on the empty services, registering
okProvider under a, replacing it by noDeleteProvider, and resolving the
unregistered name zz. -/
theorem C6_witness :
    ((CDNServicePlain.registerCDN ⟨[]⟩ "a" okProvider).getCDNByName "a" =
      Except.ok okProvider) ∧
    (((CDNServicePlain.registerCDN ⟨[]⟩ "a" okProvider).registerCDN
        "a" noDeleteProvider).getCDNByName "a" =
      Except.ok noDeleteProvider) ∧
    ((CDNServicePlain.registerCDN ⟨[]⟩ "a" okProvider).getCDNByName "zz" =
      Except.error ((CDNServicePlain.registerCDN ⟨[]⟩
        "a" okProvider).notFoundError "zz")) ∧
    ((CDNService.registerProvider ⟨⟨[], none⟩⟩ "a" okProvider).getCDNByName
        "a" = Except.ok okProvider) ∧
    (((CDNService.registerProvider ⟨⟨[], none⟩⟩ "a"
        okProvider).registerProvider "a" noDeleteProvider).getCDNByName "a" =
      Except.ok noDeleteProvider) ∧
    ((CDNService.registerProvider ⟨⟨[], none⟩⟩ "a" okProvider).getCDNByName
        "zz" = Except.error (CDNService.notFoundError "zz")) :=
  C6_register_resolve ⟨[]⟩ ⟨⟨[], none⟩⟩ "a" "zz"
    okProvider noDeleteProvider rfl rfl

/-- C7 counterexample: on svc1, where okProvider is active and owns a
delete while the provider registered under b does not, the one-argument
call delete(b) goes to the active provider with b as the url and
succeeds. Under the claimed uniform rule, the string first argument would
select the provider named b and fail with the does-not-support error. -/
theorem C7_counterexample :
    svc1.delete "b" none = Except.ok ⟨true, some "b"⟩ ∧
    svc1.delete "b" none ≠
      Except.error ⟨"CDN b does not support deletion"⟩ := by
  refine ⟨rfl, ?_⟩
  intro h
  exact Except.noConfusion h

/-- C7 amended: the type-based discrimination holds for upload alone — a
Buffer first argument selects the active provider and a string selects
the named provider — whereas download, exists and delete, whose first
argument is always a string, discriminate on the argument count: one
argument means the active provider with that string as the url, two
arguments resolve the first as a provider name. -/
theorem C7_dispatch_rule (svc : CDNService) (p q : CDNProvider)
    (s u : String) (data : List Nat) (dOrO : Option BufferOrOptions)
    (opts : Option UploadOptions)
    (hA : svc.getActiveProvider = Except.ok p)
    (hN : svc.getCDNByName s = Except.ok q) :
    (svc.upload (StringOrBuffer.buf data) dOrO opts =
      p.upload data (BufferOrOptions.asOptions dOrO)) ∧
    (svc.upload (StringOrBuffer.str s)
        (some (BufferOrOptions.buf data)) opts = q.upload data opts) ∧
    (svc.download s none = p.download s) ∧
    (svc.download s (some u) = q.download u) ∧
    (CDNService.exists svc s none = p.exists s) ∧
    (CDNService.exists svc s (some u) = q.exists u) ∧
    (svc.delete s none = (match p.delete with
      | none => Except.error ⟨"Active CDN does not support deletion"⟩
      | some d => d s)) ∧
    (svc.delete s (some u) = (match q.delete with
      | none => Except.error ⟨"CDN " ++ s ++ " does not support deletion"⟩
      | some d => d u)) := by
  simp [CDNService.upload, CDNService.download, CDNService.exists,
        CDNService.delete, hA, hN, Except.bind, BufferOrOptions.asBuffer]

/-- C7 witness: the amended statement evaluated on svc1, whose active
provider is okProvider and where b names noDeleteProvider. -/
theorem C7_witness :
    (svc1.upload (StringOrBuffer.buf [5]) none none =
      okProvider.upload [5] (BufferOrOptions.asOptions none)) ∧
    (svc1.upload (StringOrBuffer.str "b")
        (some (BufferOrOptions.buf [5])) none =
      noDeleteProvider.upload [5] none) ∧
    (svc1.download "b" none = okProvider.download "b") ∧
    (svc1.download "b" (some "u") = noDeleteProvider.download "u") ∧
    (CDNService.exists svc1 "b" none = okProvider.exists "b") ∧
    (CDNService.exists svc1 "b" (some "u") = noDeleteProvider.exists "u") ∧
    (svc1.delete "b" none = (match okProvider.delete with
      | none => Except.error ⟨"Active CDN does not support deletion"⟩
      | some d => d "b")) ∧
    (svc1.delete "b" (some "u") = (match noDeleteProvider.delete with
      | none => Except.error ⟨"CDN b does not support deletion"⟩
      | some d => d "u")) :=
  C7_dispatch_rule svc1 okProvider noDeleteProvider "b" "u" [5]
    none none rfl rfl

/-- C8: every error a resolved provider raises inside its own upload,
delete, download or exists comes back out of the dispatch service as the
very same error value, with no wrapping, on the named path and on the
active path alike. -/
theorem C8_backend_error_propagates (svc : CDNService) (name : String)
    (p q : CDNProvider) (e : JSError)
    (hN : svc.getCDNByName name = Except.ok p)
    (hA : svc.getActiveProvider = Except.ok q) :
    (∀ data opts, p.upload data opts = Except.error e →
      svc.upload (StringOrBuffer.str name)
        (some (BufferOrOptions.buf data)) opts = Except.error e) ∧
    (∀ url d, p.delete = some d → d url = Except.error e →
      svc.delete name (some url) = Except.error e) ∧
    (∀ url, p.download url = Except.error e →
      svc.download name (some url) = Except.error e) ∧
    (∀ url, p.exists url = Except.error e →
      CDNService.exists svc name (some url) = Except.error e) ∧
    (∀ data o, q.upload data (some o) = Except.error e →
      svc.upload (StringOrBuffer.buf data) (some (BufferOrOptions.opts o))
        none = Except.error e) ∧
    (∀ url d, q.delete = some d → d url = Except.error e →
      svc.delete url none = Except.error e) ∧
    (∀ url, q.download url = Except.error e →
      svc.download url none = Except.error e) ∧
    (∀ url, q.exists url = Except.error e →
      CDNService.exists svc url none = Except.error e) := by
  refine ⟨?_, ?_, ?_, ?_, ?_, ?_, ?_, ?_⟩
  · intro data opts hup
    simp [CDNService.upload, hN, Except.bind, BufferOrOptions.asBuffer, hup]
  · intro url d hd hderr
    simp [CDNService.delete, hN, Except.bind, hd, hderr]
  · intro url hdl
    simp [CDNService.download, hN, Except.bind, hdl]
  · intro url hex
    simp [CDNService.exists, hN, Except.bind, hex]
  · intro data o hup
    simp [CDNService.upload, hA, Except.bind, BufferOrOptions.asOptions, hup]
  · intro url d hd hderr
    simp [CDNService.delete, hA, Except.bind, hd, hderr]
  · intro url hdl
    simp [CDNService.download, hA, Except.bind, hdl]
  · intro url hex
    simp [CDNService.exists, hA, Except.bind, hex]

/-- C8 witness: the theorem evaluated on svcFail, whose registered and
active provider throws Service unavailable from every operation; the
dispatch calls all surface exactly that error. -/
theorem C8_witness :
    (svcFail.upload (StringOrBuffer.str "f")
        (some (BufferOrOptions.buf [1])) none =
      Except.error ⟨"Service unavailable"⟩) ∧
    (svcFail.delete "f" (some "u") = Except.error ⟨"Service unavailable"⟩) ∧
    (svcFail.download "f" (some "u") =
      Except.error ⟨"Service unavailable"⟩) ∧
    (CDNService.exists svcFail "f" (some "u") =
      Except.error ⟨"Service unavailable"⟩) ∧
    (svcFail.download "u" none = Except.error ⟨"Service unavailable"⟩) :=
  have T := C8_backend_error_propagates svcFail "f"
    (failingProvider ⟨"Service unavailable"⟩)
    (failingProvider ⟨"Service unavailable"⟩)
    ⟨"Service unavailable"⟩ rfl rfl
  ⟨T.1 [1] none rfl,
   T.2.1 "u" (fun _ => Except.error ⟨"Service unavailable"⟩) rfl rfl,
   T.2.2.1 "u" rfl,
   T.2.2.2.1 "u" rfl,
   T.2.2.2.2.2.2.1 "u" rfl⟩

/-- C9: in the single-selection service a call to delete, download or
exists with exactly one string argument always treats that string as a
url for the active provider — even when it is the name of a registered
provider — and only the two-argument form resolves the first string as a
provider name. -/
theorem C9_single_string_is_url (svc : CDNService) (s : String)
    (p : CDNProvider) (hreg : svc.providers.getItemByName s = some p) :
    (svc.download s none =
      svc.getActiveProvider.bind fun q => q.download s) ∧
    (CDNService.exists svc s none =
      svc.getActiveProvider.bind fun q => q.exists s) ∧
    (svc.delete s none = svc.getActiveProvider.bind fun q =>
      match q.delete with
      | none => Except.error ⟨"Active CDN does not support deletion"⟩
      | some d => d s) ∧
    (∀ u, svc.download s (some u) = p.download u) ∧
    (∀ u, CDNService.exists svc s (some u) = p.exists u) := by
  refine ⟨rfl, rfl, rfl, ?_, ?_⟩ <;> intro u <;>
    simp [CDNService.download, CDNService.exists, CDNService.getCDNByName,
          hreg, Except.bind]

/-- C9 witness: the theorem evaluated on svc1 at the registered name b:
the one-argument calls run on the active okProvider with b as the url,
the two-argument calls run on noDeleteProvider. -/
theorem C9_witness :
    (svc1.download "b" none =
      svc1.getActiveProvider.bind fun q => q.download "b") ∧
    (CDNService.exists svc1 "b" none =
      svc1.getActiveProvider.bind fun q => q.exists "b") ∧
    (svc1.delete "b" none = svc1.getActiveProvider.bind fun q =>
      match q.delete with
      | none => Except.error ⟨"Active CDN does not support deletion"⟩
      | some d => d "b") ∧
    (∀ u, svc1.download "b" (some u) = noDeleteProvider.download u) ∧
    (∀ u, CDNService.exists svc1 "b" (some u) = noDeleteProvider.exists u) :=
  C9_single_string_is_url svc1 "b" noDeleteProvider rfl

/-- C10: a rejected GET fetch is not caught by the default download: it
propagates to the caller as the very same underlying error, not as a
failed-to-download error built from a status text — in contrast to the
default exists, which maps a rejected HEAD fetch to ok false. -/
theorem C10_transport_error_uncaught (fetch : FetchFn) (url : String)
    (e e2 : JSError)
    (hG : fetch url none = Except.error e)
    (hH : fetch url (some "HEAD") = Except.error e2) :
    CDNProvider.defaultDownload fetch url = Except.error e ∧
    CDNProvider.defaultExists fetch url = Except.ok false := by
  constructor
  · unfold CDNProvider.defaultDownload
    rw [hG]
  · unfold CDNProvider.defaultExists
    rw [hH]

/-- A network on which every request is rejected with a transport error. -/
def fetchNetworkError : FetchFn := fun _ _ => Except.error ⟨"Network error"⟩

/-- C10 witness: on the always-rejecting network the default download
surfaces the raw transport error Network error while the default exists
returns ok false. -/
theorem C10_witness :
    CDNProvider.defaultDownload fetchNetworkError "http://x/f" =
      Except.error ⟨"Network error"⟩ ∧
    CDNProvider.defaultExists fetchNetworkError "http://x/f" =
      Except.ok false :=
  C10_transport_error_uncaught fetchNetworkError "http://x/f"
    ⟨"Network error"⟩ ⟨"Network error"⟩ rfl rfl
